import Mathlib

/-!
Verification of the `das` repository (files `src/das/models.py` and
`src/das/train.py`) against its natural-language specification.

The two Python files are configuration plumbing over an external deep-learning
framework.  The embedding below translates the repository's own computations
(stride arithmetic, parameter plumbing, registry lookup, layer-graph assembly,
output-file naming, the error paths) into executable Lean definitions.  Layer
graphs are represented symbolically as lists of layer nodes; the shape
behaviour of the external layers (keras Dense/LSTM/UpSampling/MaxPooling, the
repository's `das.kapre` Spectrogram and `das.tcn` TCN, which are not part of
the analysed sources) is modelled from the spec.  External effects of
`train` (data loading, file writes, logging) are recorded as an event trace;
the environment (dataset on disk, wall clock, neptune module state, the
epochs the fit loop runs) is passed in explicitly.
-/

namespace Das

/-! ## models.py: layer graphs -/

/-- A node of the layer graph assembled by the model builders in `models.py`.
Each constructor carries the scalar arguments that determine the tensor shape;
hyperparameters that only tune the internals of a layer (activation, dropout,
padding, skip connections, separable convolutions) do not change the graph
shape and are not carried on the nodes. -/
inductive Layer where
  /-- `kl.Input(shape=(nb_hist, nb_freq))` -/
  | input (nb_hist nb_freq : ℕ)
  /-- `Spectrogram(n_dft=pre_nb_dft, n_hop=2**nb_pre_conv, ...)` -/
  | spectrogram (n_dft n_hop : ℕ)
  /-- `kl.Reshape((out.shape[1], out.shape[2] * out.shape[3]))` -/
  | reshape
  /-- `tcn_layer.TCN(nb_filters=..., kernel_size=..., nb_stacks=..., dilations=...)` -/
  | tcnBlock (nb_filters kernel_size nb_stacks : ℕ) (dilations : List ℕ)
  /-- `kl.Bidirectional(kl.LSTM(units=nb_lstm_units, return_sequences=True))` -/
  | bilstm (units : ℕ)
  /-- `kl.Dense(nb_classes)` -/
  | dense (units : ℕ)
  /-- `kl.Activation('softmax')` -/
  | softmax
  /-- `kl.UpSampling1D(size=2**nb_pre_conv)` -/
  | upsampling1d (size : ℕ)
  /-- `kl.MaxPooling1D(pool_size=2**nb_pre_conv, strides=2**nb_pre_conv)` -/
  | maxpooling1d (pool_size strides : ℕ)
  deriving Repr, DecidableEq

/-- The arguments of the builder functions `tcn_stft` / `tcn_tcn` / `tcn` in
`models.py` that determine the assembled graph and the compile call.  The
builders are invoked as `model_dict[model_name](**params)`: a `learning_rate`
of `none` models the key being absent from the params dict, in which case the
signature default `0.0005` applies (models.py lines 32 and 109).  Arguments
that do not affect the layer graph or the compile arguments relevant here
(`activation`, `use_skip_connections`, `dropout_rate`, `padding`,
`use_separable`, `return_sequences`) and the ignored extra keys `**kwignored`
are omitted. -/
structure TcnParams where
  nb_freq : ℕ
  nb_classes : ℕ
  nb_hist : ℕ := 1
  nb_filters : ℕ := 16
  kernel_size : ℕ := 3
  nb_conv : ℕ := 1
  loss : String := "categorical_crossentropy"
  dilations : Option (List ℕ) := none
  sample_weight_mode : Option String := none
  nb_pre_conv : ℕ := 0
  pre_nb_dft : ℕ := 64
  nb_lstm_units : ℕ := 0
  learning_rate : Option ℚ := none
  upsample : Bool := true
  deriving Repr, DecidableEq

/-- A compiled model: the assembled layer graph plus the compile arguments
(`model.compile(optimizer=keras.optimizers.Adam(lr=learning_rate, ...),
loss=loss, sample_weight_mode=sample_weight_mode)`). -/
structure Model where
  layers : List Layer
  learning_rate : ℚ
  loss : String
  sample_weight_mode : Option String
  deriving Repr, DecidableEq

/-- The STFT frontend of `tcn_stft` (models.py lines 75-79): for
`nb_pre_conv > 0`, a trainable `Spectrogram` with hop `2**nb_pre_conv`
followed by the `Reshape` merging frequency and channel axes; otherwise no
frontend. -/
def stftFrontend (p : TcnParams) : List Layer :=
  if 0 < p.nb_pre_conv then
    [Layer.spectrogram p.pre_nb_dft (2 ^ p.nb_pre_conv), Layer.reshape]
  else []

/-- Embeds `models.tcn_stft` (models.py lines 24-100): input, optional STFT
frontend, TCN stack, optional bidirectional LSTM, dense classifier head with
softmax, optional upsampling back to the input sample rate, then compile. -/
def tcn_stft (p : TcnParams) : Model :=
  let dilations := p.dilations.getD [1, 2, 4, 8, 16]
  let lstm : List Layer :=
    if 0 < p.nb_lstm_units then [Layer.bilstm p.nb_lstm_units] else []
  let ups : List Layer :=
    if 0 < p.nb_pre_conv ∧ p.upsample then
      [Layer.upsampling1d (2 ^ p.nb_pre_conv)]
    else []
  { layers := [Layer.input p.nb_hist p.nb_freq] ++ stftFrontend p
      ++ [Layer.tcnBlock p.nb_filters p.kernel_size p.nb_conv dilations]
      ++ lstm ++ [Layer.dense p.nb_classes, Layer.softmax] ++ ups,
    learning_rate := p.learning_rate.getD (0.0005 : ℚ),
    loss := p.loss,
    sample_weight_mode := p.sample_weight_mode }

/-- Embeds `models.tcn` (models.py lines 18-21): a synonym that forwards all
arguments to `tcn_stft`. -/
def tcn (p : TcnParams) : Model := tcn_stft p

/-- The TCN frontend of `tcn_tcn` (models.py lines 147-152): for
`nb_pre_conv > 0`, a TCN block with `nb_stacks=nb_pre_conv` followed by
`MaxPooling1D(pool_size=2**nb_pre_conv, strides=2**nb_pre_conv)`; otherwise no
frontend. -/
def tcnFrontend (p : TcnParams) : List Layer :=
  if 0 < p.nb_pre_conv then
    [Layer.tcnBlock p.nb_filters p.kernel_size p.nb_pre_conv
        (p.dilations.getD [1, 2, 4, 8, 16]),
     Layer.maxpooling1d (2 ^ p.nb_pre_conv) (2 ^ p.nb_pre_conv)]
  else []

/-- Embeds `models.tcn_tcn` (models.py lines 103-167): input, optional TCN
frontend with max pooling, TCN stack, dense classifier head with softmax,
optional upsampling, then compile. -/
def tcn_tcn (p : TcnParams) : Model :=
  let dilations := p.dilations.getD [1, 2, 4, 8, 16]
  let ups : List Layer :=
    if 0 < p.nb_pre_conv ∧ p.upsample then
      [Layer.upsampling1d (2 ^ p.nb_pre_conv)]
    else []
  { layers := [Layer.input p.nb_hist p.nb_freq] ++ tcnFrontend p
      ++ [Layer.tcnBlock p.nb_filters p.kernel_size p.nb_conv dilations]
      ++ [Layer.dense p.nb_classes, Layer.softmax] ++ ups,
    learning_rate := p.learning_rate.getD (0.0005 : ℚ),
    loss := p.loss,
    sample_weight_mode := p.sample_weight_mode }

/-- Embeds the decorator `models._register_as_model` (models.py lines 12-15):
adds `func` under its function name to the model dict.  Python dict insertion
preserves order; the three decorated functions have distinct names, so an
association list in registration order is an exact model. -/
def _register_as_model (name : String) (func : TcnParams → Model)
    (d : List (String × (TcnParams → Model))) : List (String × (TcnParams → Model)) :=
  d ++ [(name, func)]

/-- Embeds `models.model_dict`: the registry built by applying
`@_register_as_model` to `tcn` (line 18), `tcn_stft` (line 24) and `tcn_tcn`
(line 103), in source order. -/
def model_dict : List (String × (TcnParams → Model)) :=
  _register_as_model "tcn_tcn" tcn_tcn
    (_register_as_model "tcn_stft" tcn_stft
      (_register_as_model "tcn" tcn []))

/-! ## Shape semantics of the layer graph -/

/-- The shape of a (batch-less) sequence tensor: sequence length and size of
the last axis. -/
structure TensorShape where
  seqLen : ℕ
  lastDim : ℕ
  deriving Repr, DecidableEq

/-- Modelled from the spec: the shape behaviour of the layers, which are
implemented outside the analysed sources (keras layers; `das.kapre`'s
`Spectrogram` and `das.tcn`'s `TCN` live in the repository but not under the
analysed files).  Per the spec, "optional frontend stages increase/decrease
sequence length by the declared downsampling factor": the Spectrogram with hop
`n_hop` divides the sequence length by `n_hop` (its `pre_nb_dft // 2 + 1`
frequency bins merge into the last axis at the following Reshape), and
MaxPooling with pool size and stride `pool_size` divides it by `pool_size`
(both as floor division); UpSampling1D multiplies the sequence length by its
size.  A TCN block with `return_sequences=True` preserves sequence length and
outputs `nb_filters` channels, a bidirectional LSTM outputs `2*units`
channels, Dense sets the last axis to its unit count, softmax is pointwise. -/
def Layer.applyShape (s : TensorShape) : Layer → TensorShape
  | .input nb_hist nb_freq => ⟨nb_hist, nb_freq⟩
  | .spectrogram n_dft n_hop => ⟨s.seqLen / n_hop, (n_dft / 2 + 1) * s.lastDim⟩
  | .reshape => s
  | .tcnBlock nb_filters _ _ _ => ⟨s.seqLen, nb_filters⟩
  | .bilstm units => ⟨s.seqLen, 2 * units⟩
  | .dense units => ⟨s.seqLen, units⟩
  | .softmax => s
  | .upsampling1d size => ⟨size * s.seqLen, s.lastDim⟩
  | .maxpooling1d pool_size _ => ⟨s.seqLen / pool_size, s.lastDim⟩

/-- The shape after running a list of layers from an initial shape. -/
def runShape (s : TensorShape) (layers : List Layer) : TensorShape :=
  layers.foldl Layer.applyShape s

/-- The output shape of a model's layer graph (the input node overwrites the
seed shape). -/
def outputShape (m : Model) : TensorShape :=
  runShape ⟨0, 0⟩ m.layers

/-! ## train.py: configuration, environment, events -/

/-- The shape of one data split: `x.shape[0]` (samples), `x.shape[1]` and
`x.shape[-1]` (channels), as read by `train` at train.py lines 188-205 and
294. -/
structure SplitData where
  nsamples : ℕ
  nfreq : ℕ
  nchannels : ℕ
  deriving Repr, DecidableEq

/-- The dataset container returned by `io.load` (train/val/test splits plus
attribute metadata; `class_names` comes from `d.attrs` and is merged into the
params dict at train.py line 178, its length becomes `nb_classes` at line
202). -/
structure Dataset where
  train : SplitData
  val : SplitData
  test : SplitData
  class_names : List String
  deriving Repr, DecidableEq

/-- The keyword arguments of `train.train` (train.py lines 28-43) that feed
the computations modelled here, with the source's defaults.  `save_pfx` is the
source's `save_prefix` argument.  Integer arguments that enter the stride
arithmetic are ℤ, as Python ints; arguments that are only forwarded to
external library calls (`y_suffix`, `verbose`, `batch_size`,
`reduce_lr_patience`, `fraction_data`, `seed`, `batch_level_subsampling`,
`pre_kernel_size`, `pre_nb_filters`, `pre_nb_conv`, `use_separable`,
`nb_stacks`, `x_suffix`, `balance`, `version_data`, `_qt_progress`) are
omitted. -/
structure TrainConfig where
  data_dir : String
  save_dir : String := "./"
  save_pfx : Option String := none
  model_name : String := "tcn"
  nb_filters : ℕ := 16
  kernel_size : ℤ := 16
  nb_conv : ℤ := 3
  nb_hist : ℤ := 1024
  ignore_boundaries : Bool := true
  nb_pre_conv : ℕ := 0
  pre_nb_dft : ℕ := 64
  nb_lstm_units : ℕ := 0
  nb_epoch : ℕ := 400
  learning_rate : Option ℚ := none
  tensorboard : Bool := false
  neptune_api_token : Option String := none
  neptune_project : Option String := none
  with_y_hist : Bool := true
  deriving Repr, DecidableEq

/-- One epoch of the external fit loop: an opaque identifier for the weight
snapshot the model holds after the epoch, and the validation loss the epoch
reported. -/
structure FitEpoch where
  weights : ℕ
  val_loss : ℚ
  deriving Repr, DecidableEq

/-- The external world `train` runs against: the dataset `io.load` returns,
the wall-clock timestamp `time.strftime` formats at train.py line 252, the
state of the optional neptune integration (`neptune.HAS_NEPTUNE`; whether
`neptune.Poseidon(...)` raises; whether `poseidon.callback()` raises after a
successful construction), and the epochs `model.fit` runs. -/
structure TrainEnv where
  dataset : Dataset
  timestamp : String
  has_neptune : Bool
  poseidon_init_raises : Bool
  poseidon_callback_raises : Bool
  fit_epochs : List FitEpoch
  deriving Repr, DecidableEq

/-- The Python exceptions `train` can surface in the modelled paths: the
explicit `ValueError` (train.py line 166), the `KeyError` of
`models.model_dict[model_name]` (line 248), and the `NameError` of reading a
never-assigned local (line 313). -/
inductive TrainError where
  | valueError (msg : String)
  | keyError (key : String)
  | nameError (name : String)
  deriving Repr, DecidableEq

/-- An externally visible effect of `train`, in program order. -/
inductive Event where
  /-- `io.load(data_dir, ...)` (train.py line 176) -/
  | dataLoaded (data_dir : String)
  /-- a file created or overwritten under its full name -/
  | fileWritten (filename : String)
  /-- `logging.error(...)` -/
  | logError (msg : String)
  /-- `logging.exception(...)` -/
  | logException (msg : String)
  /-- the neptune callback was appended to the callback list -/
  | neptuneCallbackAdded
  /-- `model.fit(...)` ran (train.py line 283) -/
  | fitRun
  deriving Repr, DecidableEq

/-- What `train` computes and returns when it does not raise.  `returns_model`
is `true` on the path that returns `(model, params)` (train.py line 331) and
`false` on the bare `return` taken when the test split is shorter than
`nb_hist` (line 296).  `evaluated_weights` is the snapshot loaded from the
checkpoint before the final evaluation (line 299), `none` when the evaluation
was skipped. -/
structure TrainResult where
  stride : ℤ
  data_padding : ℤ
  save_name : String
  builder_params : TcnParams
  model : Model
  evaluated_weights : Option ℕ
  returns_model : Bool
  deriving Repr, DecidableEq

/-- Python's built-in `round`: round half to even (used at train.py line 153,
`int(round(nb_hist / 2))`). -/
def pyRound (q : ℚ) : ℤ :=
  if Int.fract q < 1 / 2 then ⌊q⌋
  else if 1 / 2 < Int.fract q then ⌊q⌋ + 1
  else if Even ⌊q⌋ then ⌊q⌋ else ⌊q⌋ + 1

/-- Python truthiness of an `Optional[str]`: `None` and the empty string are
falsy (the conditions at train.py lines 271 and 312). -/
def optStrTruthy : Option String → Bool
  | none => false
  | some s => !s.isEmpty

/-- The values computed by the branch on `with_y_hist` at train.py lines
140-153. -/
structure StrideSetup where
  return_sequences : Bool
  stride : ℤ
  y_offset : ℤ
  sample_weight_mode : Option String
  data_padding : ℤ
  deriving Repr, DecidableEq

/-- Embeds train.py lines 140-153.  With `with_y_hist` (regression):
`return_sequences = True`, `stride = nb_hist`, `sample_weight_mode =
'temporal'`, and with `ignore_boundaries` additionally `data_padding =
int(np.ceil(kernel_size * nb_conv))` and `stride = stride - 2 *
data_padding`.  Otherwise (classification): `return_sequences = False`,
`stride = 1`, `y_offset = int(round(nb_hist / 2))`. -/
def strideSetup (cfg : TrainConfig) : StrideSetup :=
  if cfg.with_y_hist then
    let data_padding : ℤ :=
      if cfg.ignore_boundaries then ⌈((cfg.kernel_size * cfg.nb_conv : ℤ) : ℚ)⌉ else 0
    { return_sequences := true,
      stride := cfg.nb_hist - 2 * data_padding,
      y_offset := 0,
      sample_weight_mode := some "temporal",
      data_padding := data_padding }
  else
    { return_sequences := false,
      stride := 1,
      y_offset := pyRound ((cfg.nb_hist : ℚ) / 2),
      sample_weight_mode := none,
      data_padding := 0 }

/-- The message of the `ValueError` raised at train.py line 166; it describes
the remediation. -/
def strideErrMsg : String :=
  "Stride <=0 - needs to be >0. Possible solutions: reduce kernel_size, increase nb_hist parameters, uncheck ignore_boundaries"

/-- The normalisation of the `save_prefix` argument at train.py lines 157-161:
`None` becomes the empty string, and a non-empty value gets an underscore
appended. -/
def savePfxNorm (p : Option String) : String :=
  let s := p.getD ""
  if 0 < s.length then s ++ "_" else s

/-- Modelled from the spec: the final content of the checkpoint file written
by the external `ModelCheckpoint(checkpoint_save_name, save_best_only=True,
monitor='val_loss')` callback (train.py line 258).  The glossary defines
"Checkpoint: persisted model weights snapshot taken at the best validation
score": the callback saves after an epoch exactly when its validation loss
strictly improves on the best seen so far (the initial best is infinite, so a
first epoch always saves), and the file ends up holding the last saved
snapshot — the earliest epoch attaining the minimal validation loss. -/
def checkpointStep (best : Option FitEpoch) (e : FitEpoch) : Option FitEpoch :=
  match best with
  | none => some e
  | some b => if e.val_loss < b.val_loss then some e else some b

/-- The checkpoint file's final content: the fold of `checkpointStep` over the
epochs the fit loop ran, starting from no saved snapshot. -/
def checkpointContents (epochs : List FitEpoch) : Option FitEpoch :=
  epochs.foldl checkpointStep none

/-- The params-dict fields `train` assembles before `models.model_dict
[model_name](**params)` at train.py line 248: `params = locals()` (line 162),
the `learning_rate` key deleted when `None` (lines 169-170), `nb_freq` and
`nb_classes` derived from the dataset (line 202), `sample_weight_mode` and
`return_sequences` from the `with_y_hist` branch.  Python ints that became
tensor dimensions are nonnegative on every path that reaches this call. -/
def builderParams (cfg : TrainConfig) (d : Dataset) (s : StrideSetup) : TcnParams :=
  { nb_freq := d.train.nfreq,
    nb_classes := d.class_names.length,
    nb_hist := cfg.nb_hist.toNat,
    nb_filters := cfg.nb_filters,
    kernel_size := cfg.kernel_size.toNat,
    nb_conv := cfg.nb_conv.toNat,
    sample_weight_mode := s.sample_weight_mode,
    nb_pre_conv := cfg.nb_pre_conv,
    pre_nb_dft := cfg.pre_nb_dft,
    nb_lstm_units := cfg.nb_lstm_units,
    learning_rate := cfg.learning_rate }

/-- Embeds `train.train` (train.py lines 28-331) as a function of the
configuration and the external environment, returning the event trace and
either the raised exception or the result.  Program order follows the source:
stride setup (lines 140-153), save-prefix normalisation (157-161), stride
validation (165-166), learning-rate key removal (169-170), data loading
(176), network construction from the registry (248), output file naming and
the params file (251-255; `utils.save_params` is outside the analysed
sources, so the spec's "parameters file" is modelled as the
`save_name ++ "_params.yaml"` write), the checkpoint callback (256-258,
which writes the checkpoint file as soon as an epoch improves the monitored
validation loss — hence exactly when at least one epoch ran), the neptune
block (270-279), the fit loop (283-291), the early return without test data
(294-296), the checkpoint reload (298-299), the neptune test-results call on
a possibly never-assigned `poseidon` (312-313), and the results bundle
(315-328). -/
def train (cfg : TrainConfig) (env : TrainEnv) :
    List Event × Except TrainError TrainResult :=
  let s := strideSetup cfg
  let pfx := savePfxNorm cfg.save_pfx
  if s.stride ≤ 0 then
    ([], .error (.valueError strideErrMsg))
  else
    let d := env.dataset
    let ev0 := [Event.dataLoaded cfg.data_dir]
    match model_dict.lookup cfg.model_name with
    | none => (ev0, .error (.keyError cfg.model_name))
    | some build =>
      let bparams := builderParams cfg d s
      let model := build bparams
      let save_name := cfg.save_dir ++ "/" ++ pfx ++ env.timestamp
      let checkpoint_save_name := save_name ++ "_model.h5"
      let ev1 := ev0 ++ [Event.fileWritten (save_name ++ "_params.yaml")]
      let neptune_on := optStrTruthy cfg.neptune_api_token
        && optStrTruthy cfg.neptune_project
      let nep : List Event × Bool :=
        if neptune_on then
          if !env.has_neptune then
            ([Event.logError "Could not import neptune in das.neptune."], false)
          else if env.poseidon_init_raises then
            ([Event.logException "Neptune stuff failed."], false)
          else if env.poseidon_callback_raises then
            ([Event.logException "Neptune stuff failed."], true)
          else
            ([Event.neptuneCallbackAdded], true)
        else ([], false)
      let ev2 := ev1 ++ nep.1
      let checkpointWrites : List Event :=
        if (checkpointContents env.fit_epochs).isSome then
          [Event.fileWritten checkpoint_save_name]
        else []
      let ev3 := ev2 ++ [Event.fitRun] ++ checkpointWrites
      if d.test.nsamples < cfg.nb_hist.toNat then
        (ev3, .ok { stride := s.stride, data_padding := s.data_padding,
                    save_name := save_name, builder_params := bparams,
                    model := model, evaluated_weights := none,
                    returns_model := false })
      else
        let loaded := (checkpointContents env.fit_epochs).map FitEpoch.weights
        if neptune_on && !nep.2 then
          (ev3, .error (.nameError "poseidon"))
        else
          let ev4 := ev3 ++ [Event.fileWritten (save_name ++ "_results.h5")]
          (ev4, .ok { stride := s.stride, data_padding := s.data_padding,
                      save_name := save_name, builder_params := bparams,
                      model := model, evaluated_weights := loaded,
                      returns_model := true })

/-- Whether `t` is a suffix of `s` (character-list comparison). -/
def strEndsWith (s t : String) : Bool :=
  List.isPrefixOf t.data.reverse s.data.reverse

/-- Whether `s` starts with `t` (character-list comparison). -/
def strStartsWith (s t : String) : Bool :=
  List.isPrefixOf t.data s.data

/-- Whether an event, if it writes a file, writes it under the given
save-name stem. -/
def isFileWritePrefixed (stem : String) : Event → Bool
  | .fileWritten n => strStartsWith n stem
  | _ => true

/-- Whether an event writes a results bundle (a `*_results.h5` file,
train.py line 315). -/
def isResultsWrite : Event → Bool
  | .fileWritten n => strEndsWith n "_results.h5"
  | _ => false

/-! ## Concrete fixtures -/

/-- A dataset fixture: train/val splits of 4096 single-channel samples, two
classes, and an empty test split. -/
def dsNoTest : Dataset :=
  ⟨⟨4096, 1, 1⟩, ⟨4096, 1, 1⟩, ⟨0, 1, 1⟩, ["noise", "pulse"]⟩

/-- The same fixture with a 4096-sample test split. -/
def dsFull : Dataset :=
  ⟨⟨4096, 1, 1⟩, ⟨4096, 1, 1⟩, ⟨4096, 1, 1⟩, ["noise", "pulse"]⟩

/-- A configuration using only the defaults of `train`'s signature. -/
def cfg0 : TrainConfig := { data_dir := "data" }

/-- The default configuration with both neptune arguments set. -/
def cfgNeptune : TrainConfig :=
  { data_dir := "data", neptune_api_token := some "token",
    neptune_project := some "project" }

/-- The default configuration with a chunk size too small for the default
`kernel_size * nb_conv` padding: the computed stride is 10 - 2*48 < 0. -/
def cfgSmallHist : TrainConfig := { data_dir := "data", nb_hist := 10 }

/-- The default configuration in classification mode (`with_y_hist=False`). -/
def cfgClassification : TrainConfig := { data_dir := "data", with_y_hist := false }

/-- The default configuration with an explicit learning rate. -/
def cfgWithLR : TrainConfig := { data_dir := "data", learning_rate := some (1 / 100) }

/-- An environment over the full fixture dataset: fixed timestamp, neptune
not importable, three fit epochs with the second attaining the best
validation loss. -/
def env0 : TrainEnv :=
  { dataset := dsFull, timestamp := "20260101_000000",
    has_neptune := false, poseidon_init_raises := false,
    poseidon_callback_raises := false,
    fit_epochs := [⟨1, 3⟩, ⟨2, 2⟩, ⟨3, 5⟩] }

/-- The same environment over the dataset without test data. -/
def envNoTest : TrainEnv := { env0 with dataset := dsNoTest }

/-- A throwaway result record, used only to totalise `resultOf`. -/
def junkResult : TrainResult :=
  ⟨0, 0, "", { nb_freq := 0, nb_classes := 0 },
    { layers := [], learning_rate := 0, loss := "", sample_weight_mode := none },
    none, false⟩

/-- The result of a (given) successful run. -/
def resultOf (cfg : TrainConfig) (env : TrainEnv) : TrainResult :=
  match (train cfg env).2 with
  | .ok r => r
  | .error _ => junkResult

/-! ## Helper lemmas -/

/-- With a non-positive stride, `train` raises the remediation `ValueError`
with an empty event trace. -/
theorem train_of_stride_nonpos (cfg : TrainConfig) (env : TrainEnv)
    (h : (strideSetup cfg).stride ≤ 0) :
    train cfg env = ([], .error (.valueError strideErrMsg)) := by
  simp [train, h]

/-- With a positive stride, `train` never raises a `ValueError`: the remaining
error paths are the registry `KeyError` and the neptune `NameError`. -/
theorem train_no_valueError_of_stride_pos (cfg : TrainConfig) (env : TrainEnv)
    (h : 0 < (strideSetup cfg).stride) :
    ∀ msg, (train cfg env).2 ≠ .error (.valueError msg) := by
  intro msg
  have h' : ¬ (strideSetup cfg).stride ≤ 0 := not_le.mpr h
  simp only [train, h', if_false]
  rcases hlk : model_dict.lookup cfg.model_name with _ | build
  · simp
  · cases hn : (optStrTruthy cfg.neptune_api_token && optStrTruthy cfg.neptune_project) <;>
      cases hh : env.has_neptune <;>
      cases hp : env.poseidon_init_raises <;>
      cases hc : env.poseidon_callback_raises <;>
      by_cases ht : env.dataset.test.nsamples < cfg.nb_hist.toNat <;>
      simp [hn, hh, hp, hc, ht]

/-- What every successful run of `train` returns: the builder looked up in the
registry applied to the assembled params, the save name built from save_dir,
normalised prefix and timestamp, the computed stride, and (when the final
evaluation ran) the weights reloaded from the checkpoint. -/
theorem train_ok_fields (cfg : TrainConfig) (env : TrainEnv) (r : TrainResult)
    (hok : (train cfg env).2 = .ok r) :
    ∃ build, model_dict.lookup cfg.model_name = some build
      ∧ r.builder_params = builderParams cfg env.dataset (strideSetup cfg)
      ∧ r.model = build r.builder_params
      ∧ r.save_name = cfg.save_dir ++ "/" ++ savePfxNorm cfg.save_pfx ++ env.timestamp
      ∧ r.stride = (strideSetup cfg).stride
      ∧ (r.returns_model = true →
          r.evaluated_weights = (checkpointContents env.fit_epochs).map FitEpoch.weights) := by
  by_cases hs : (strideSetup cfg).stride ≤ 0
  · rw [train_of_stride_nonpos cfg env hs] at hok
    exact absurd hok (by simp)
  · revert hok
    simp only [train, hs, if_false]
    rcases hlk : model_dict.lookup cfg.model_name with _ | build
    · simp
    · cases hn : (optStrTruthy cfg.neptune_api_token && optStrTruthy cfg.neptune_project) <;>
        cases hh : env.has_neptune <;>
        cases hp : env.poseidon_init_raises <;>
        cases hc : env.poseidon_callback_raises <;>
        by_cases ht : env.dataset.test.nsamples < cfg.nb_hist.toNat <;>
        simp [hn, hh, hp, hc, ht] <;>
        (rintro rfl; refine ⟨?_, ?_, ?_, ?_, ?_⟩ <;> simp)

/-- `model_dict` lookup, written out: the three registered names hit their
builders in registration order, every other name misses. -/
theorem lookup_model_dict_eq (name : String) :
    model_dict.lookup name =
      if name = "tcn" then some tcn
      else if name = "tcn_stft" then some tcn_stft
      else if name = "tcn_tcn" then some tcn_tcn
      else none := by
  rcases eq_or_ne name "tcn" with h1 | h1
  · subst h1; rfl
  rcases eq_or_ne name "tcn_stft" with h2 | h2
  · subst h2; rfl
  rcases eq_or_ne name "tcn_tcn" with h3 | h3
  · subst h3; rfl
  have b1 : (name == "tcn") = false := beq_eq_false_iff_ne.mpr h1
  have b2 : (name == "tcn_stft") = false := beq_eq_false_iff_ne.mpr h2
  have b3 : (name == "tcn_tcn") = false := beq_eq_false_iff_ne.mpr h3
  simp [model_dict, _register_as_model, List.lookup, b1, b2, b3, h1, h2, h3]

/-- Any builder the registry returns is one of the three registered
functions. -/
theorem lookup_model_dict_cases (name : String) (f : TcnParams → Model)
    (h : model_dict.lookup name = some f) :
    f = tcn ∨ f = tcn_stft ∨ f = tcn_tcn := by
  rw [lookup_model_dict_eq] at h
  by_cases h1 : name = "tcn" <;> by_cases h2 : name = "tcn_stft" <;>
    by_cases h3 : name = "tcn_tcn" <;> simp [h1, h2, h3] at h <;> simp [h]

/-- The fold of `checkpointStep` started from a saved snapshot `b` yields a
snapshot drawn from the epochs or `b` itself, with validation loss at most
`b`'s and at most every folded epoch's. -/
theorem checkpointStep_foldl_min (l : List FitEpoch) :
    ∀ b m : FitEpoch, l.foldl checkpointStep (some b) = some m →
      (m ∈ l ∨ m = b) ∧ m.val_loss ≤ b.val_loss ∧ ∀ e ∈ l, m.val_loss ≤ e.val_loss := by
  induction l with
  | nil =>
    intro b m h
    simp only [List.foldl_nil, Option.some.injEq] at h
    subst h
    simp
  | cons e l ih =>
    intro b m h
    rw [List.foldl_cons] at h
    by_cases hlt : e.val_loss < b.val_loss
    · have hstep : checkpointStep (some b) e = some e := by
        simp [checkpointStep, hlt]
      rw [hstep] at h
      obtain ⟨hmem, hle, hall⟩ := ih e m h
      refine ⟨?_, ?_, ?_⟩
      · rcases hmem with hm | hm
        · exact Or.inl (List.mem_cons_of_mem _ hm)
        · exact Or.inl (hm ▸ List.mem_cons_self _ _)
      · exact hle.trans hlt.le
      · intro e2 he2
        rcases List.mem_cons.mp he2 with h2 | h2
        · exact h2 ▸ hle
        · exact hall e2 h2
    · have hstep : checkpointStep (some b) e = some b := by
        simp [checkpointStep, hlt]
      rw [hstep] at h
      obtain ⟨hmem, hle, hall⟩ := ih b m h
      refine ⟨?_, ?_, ?_⟩
      · rcases hmem with hm | hm
        · exact Or.inl (List.mem_cons_of_mem _ hm)
        · exact Or.inr hm
      · exact hle
      · intro e2 he2
        rcases List.mem_cons.mp he2 with h2 | h2
        · exact h2 ▸ hle.trans (not_lt.mp hlt)
        · exact hall e2 h2

/-- The fold of `checkpointStep` started from a saved snapshot never loses
it. -/
theorem checkpointStep_foldl_isSome (l : List FitEpoch) :
    ∀ b : FitEpoch, ∃ m, l.foldl checkpointStep (some b) = some m := by
  induction l with
  | nil => intro b; exact ⟨b, rfl⟩
  | cons e l ih =>
    intro b
    rw [List.foldl_cons]
    by_cases hlt : e.val_loss < b.val_loss
    · have hstep : checkpointStep (some b) e = some e := by
        simp [checkpointStep, hlt]
      rw [hstep]; exact ih e
    · have hstep : checkpointStep (some b) e = some b := by
        simp [checkpointStep, hlt]
      rw [hstep]; exact ih b

/-- The checkpoint holds an epoch of the run attaining the minimal validation
loss, and holds something as soon as one epoch ran. -/
theorem checkpointContents_min (epochs : List FitEpoch) :
    (∀ m, checkpointContents epochs = some m →
      m ∈ epochs ∧ ∀ e ∈ epochs, m.val_loss ≤ e.val_loss)
    ∧ (epochs ≠ [] → (checkpointContents epochs).isSome = true) := by
  cases epochs with
  | nil => simp [checkpointContents]
  | cons e l =>
    constructor
    · intro m h
      rw [checkpointContents, List.foldl_cons] at h
      have hstep : checkpointStep none e = some e := rfl
      rw [hstep] at h
      obtain ⟨hmem, hle, hall⟩ := checkpointStep_foldl_min l e m h
      refine ⟨?_, ?_⟩
      · rcases hmem with hm | hm
        · exact List.mem_cons_of_mem _ hm
        · exact hm ▸ List.mem_cons_self _ _
      · intro e2 he2
        rcases List.mem_cons.mp he2 with h2 | h2
        · exact h2 ▸ hle
        · exact hall e2 h2
    · intro _
      rw [checkpointContents, List.foldl_cons]
      have hstep : checkpointStep none e = some e := rfl
      rw [hstep]
      obtain ⟨m, hm⟩ := checkpointStep_foldl_isSome l e
      simp [hm]

/-- Concatenating anything to a string keeps that string a prefix. -/
theorem strStartsWith_append (s t : String) : strStartsWith (s ++ t) s = true := by
  simp [strStartsWith, List.isPrefixOf_iff_prefix]

/-! ## Claims -/

/-- C4: for every model built by `tcn_stft` or `tcn_tcn`, the size of the
last dimension of the model's output equals the declared `nb_classes`, for
all values of `nb_pre_conv`, `nb_lstm_units` and `upsample`. -/
theorem C4_output_last_dim_is_nb_classes (p : TcnParams) :
    (outputShape (tcn_stft p)).lastDim = p.nb_classes
    ∧ (outputShape (tcn_tcn p)).lastDim = p.nb_classes := by
  obtain h1 | h1 := Nat.eq_zero_or_pos p.nb_pre_conv <;>
    obtain h2 | h2 := Nat.eq_zero_or_pos p.nb_lstm_units <;>
    cases h3 : p.upsample <;>
    refine ⟨?_, ?_⟩ <;>
    simp [outputShape, runShape, tcn_stft, tcn_tcn, stftFrontend, tcnFrontend,
      Layer.applyShape, h1, h2, h3]

/-- C5: with `nb_pre_conv > 0` the frontend stage of each builder divides the
sequence length by the factor `2 ^ nb_pre_conv`, and with `upsample = true`
the final upsampling stage multiplies the sequence length back by the same
factor; with `nb_pre_conv = 0` neither a frontend nor an upsampling stage is
added and the sequence length is unchanged. -/
theorem C5_frontend_downsampling_factor (p : TcnParams) :
    (0 < p.nb_pre_conv →
      (runShape ⟨p.nb_hist, p.nb_freq⟩ (stftFrontend p)).seqLen
          = p.nb_hist / 2 ^ p.nb_pre_conv
      ∧ (runShape ⟨p.nb_hist, p.nb_freq⟩ (tcnFrontend p)).seqLen
          = p.nb_hist / 2 ^ p.nb_pre_conv
      ∧ (p.upsample = true →
          (outputShape (tcn_stft p)).seqLen
              = 2 ^ p.nb_pre_conv * (p.nb_hist / 2 ^ p.nb_pre_conv)
          ∧ (outputShape (tcn_tcn p)).seqLen
              = 2 ^ p.nb_pre_conv * (p.nb_hist / 2 ^ p.nb_pre_conv)))
    ∧ (p.nb_pre_conv = 0 →
      stftFrontend p = [] ∧ tcnFrontend p = []
      ∧ (∀ k, Layer.upsampling1d k ∉ (tcn_stft p).layers)
      ∧ (∀ k, Layer.upsampling1d k ∉ (tcn_tcn p).layers)
      ∧ (outputShape (tcn_stft p)).seqLen = p.nb_hist
      ∧ (outputShape (tcn_tcn p)).seqLen = p.nb_hist) := by
  constructor
  · intro hpos
    obtain h2 | h2 := Nat.eq_zero_or_pos p.nb_lstm_units <;>
      cases h3 : p.upsample <;>
      simp [runShape, outputShape, stftFrontend, tcnFrontend, tcn_stft, tcn_tcn,
        Layer.applyShape, hpos, h2, h3]
  · intro h0
    obtain h2 | h2 := Nat.eq_zero_or_pos p.nb_lstm_units <;>
      cases h3 : p.upsample <;>
      simp [runShape, outputShape, stftFrontend, tcnFrontend, tcn_stft, tcn_tcn,
        Layer.applyShape, h0, h2, h3]

/-- C9: the registered builder `tcn` is extensionally equal to `tcn_stft` —
for every parameter record they return the same model, so the registry
entries "tcn" and "tcn_stft" build identical models for identical
parameters. -/
theorem C9_tcn_is_synonym_of_tcn_stft :
    ∀ p : TcnParams, tcn p = tcn_stft p
      ∧ (model_dict.lookup "tcn").map (fun f => f p)
          = (model_dict.lookup "tcn_stft").map (fun f => f p) :=
  fun _ => ⟨rfl, rfl⟩

/-- C6: model construction is selected by name from the registry:
`_register_as_model` maps each builder's name to the builder in `model_dict`,
a name outside the registry misses (and makes `train` fail with the
`KeyError` of `model_dict[model_name]`), and a successful run's model is the
looked-up builder applied to the assembled params. -/
theorem C6_registry_selects_builder (cfg : TrainConfig) (env : TrainEnv) (name : String) :
    model_dict.lookup "tcn" = some tcn
    ∧ model_dict.lookup "tcn_stft" = some tcn_stft
    ∧ model_dict.lookup "tcn_tcn" = some tcn_tcn
    ∧ ((model_dict.lookup name).isSome = true ↔
        name = "tcn" ∨ name = "tcn_stft" ∨ name = "tcn_tcn")
    ∧ (0 < (strideSetup cfg).stride → model_dict.lookup cfg.model_name = none →
        (train cfg env).2 = .error (.keyError cfg.model_name))
    ∧ ∀ build r, model_dict.lookup cfg.model_name = some build →
        (train cfg env).2 = .ok r → r.model = build r.builder_params := by
  refine ⟨rfl, rfl, rfl, ?_, ?_, ?_⟩
  · rw [lookup_model_dict_eq]
    by_cases h1 : name = "tcn" <;> by_cases h2 : name = "tcn_stft" <;>
      by_cases h3 : name = "tcn_tcn" <;> simp [h1, h2, h3]
  · intro hs hnone
    have hs' : ¬ (strideSetup cfg).stride ≤ 0 := not_le.mpr hs
    simp [train, hs', hnone]
  · intro build r hlk hok
    obtain ⟨build', hlk', _, hmodel, _, _, _⟩ := train_ok_fields cfg env r hok
    rw [hlk] at hlk'
    have hb : build = build' := by injection hlk'
    rw [hb]
    exact hmodel

/-- C1: with `with_y_hist=True` and `ignore_boundaries=True` the computed
stride is `nb_hist - 2*ceil(kernel_size*nb_conv)`; `train` raises the
remediation-describing `ValueError` iff that stride is ≤ 0, and when it
raises, it does so with an empty effect trace — before any data is loaded or
any output file is written. -/
theorem C1_stride_validation (cfg : TrainConfig) (env : TrainEnv)
    (hy : cfg.with_y_hist = true) (hb : cfg.ignore_boundaries = true) :
    (strideSetup cfg).stride
        = cfg.nb_hist - 2 * ⌈((cfg.kernel_size * cfg.nb_conv : ℤ) : ℚ)⌉
    ∧ ((∃ msg, (train cfg env).2 = .error (.valueError msg)) ↔
        (strideSetup cfg).stride ≤ 0)
    ∧ ((strideSetup cfg).stride ≤ 0 →
        train cfg env = ([], .error (.valueError strideErrMsg))) := by
  refine ⟨by simp [strideSetup, hy, hb], ?_, fun h => train_of_stride_nonpos cfg env h⟩
  constructor
  · rintro ⟨msg, hmsg⟩
    by_contra hpos
    exact train_no_valueError_of_stride_pos cfg env (not_le.mp hpos) msg hmsg
  · intro h
    exact ⟨strideErrMsg, by rw [train_of_stride_nonpos cfg env h]⟩

/-- C1 witness: the default configuration with `nb_hist = 10` has stride
10 - 2*48 = -86 ≤ 0 and is rejected before any effect. -/
theorem C1_stride_validation_witness :
    (strideSetup cfgSmallHist).stride
        = cfgSmallHist.nb_hist - 2 * ⌈((cfgSmallHist.kernel_size * cfgSmallHist.nb_conv : ℤ) : ℚ)⌉
    ∧ ((∃ msg, (train cfgSmallHist env0).2 = .error (.valueError msg)) ↔
        (strideSetup cfgSmallHist).stride ≤ 0)
    ∧ ((strideSetup cfgSmallHist).stride ≤ 0 →
        train cfgSmallHist env0 = ([], .error (.valueError strideErrMsg))) :=
  C1_stride_validation cfgSmallHist env0 rfl rfl

/-- C8: with `with_y_hist=False` the stride is the constant 1, so the
`ValueError` branch guarding `stride <= 0` is unreachable regardless of the
other parameters. -/
theorem C8_classification_stride_one (cfg : TrainConfig) (env : TrainEnv)
    (h : cfg.with_y_hist = false) :
    (strideSetup cfg).stride = 1
    ∧ ∀ msg, (train cfg env).2 ≠ .error (.valueError msg) := by
  have h1 : (strideSetup cfg).stride = 1 := by simp [strideSetup, h]
  exact ⟨h1, train_no_valueError_of_stride_pos cfg env (by rw [h1]; norm_num)⟩

/-- C8 witness: the default configuration in classification mode. -/
theorem C8_classification_stride_one_witness :
    (strideSetup cfgClassification).stride = 1
    ∧ ∀ msg, (train cfgClassification env0).2 ≠ .error (.valueError msg) :=
  C8_classification_stride_one cfgClassification env0 rfl

/-- C10: a successful run hands the builder a params record whose
`learning_rate` is exactly the configured one (`none` models the deleted
key), so with `learning_rate=None` the compiled model uses the builders'
signature default 0.0005, and a set value is passed through unchanged. -/
theorem C10_learning_rate_passthrough (cfg : TrainConfig) (env : TrainEnv)
    (r : TrainResult) (hok : (train cfg env).2 = .ok r) :
    r.builder_params.learning_rate = cfg.learning_rate
    ∧ (cfg.learning_rate = none → r.model.learning_rate = (0.0005 : ℚ))
    ∧ ∀ lr, cfg.learning_rate = some lr → r.model.learning_rate = lr := by
  obtain ⟨build, hlk, hbp, hmodel, -, -, -⟩ := train_ok_fields cfg env r hok
  have hblr : ∀ q : TcnParams, (build q).learning_rate = q.learning_rate.getD (0.0005 : ℚ) := by
    rcases lookup_model_dict_cases _ _ hlk with h | h | h <;> subst h <;> exact fun _ => rfl
  refine ⟨by rw [hbp]; rfl, ?_, ?_⟩
  · intro hnone
    rw [hmodel, hblr, hbp]
    simp [builderParams, hnone]
  · intro lr hsome
    rw [hmodel, hblr, hbp]
    simp [builderParams, hsome]

/-- C10 witness: an explicit learning rate of 1/100 reaches the compiled
model unchanged. -/
theorem C10_learning_rate_passthrough_witness :
    (resultOf cfgWithLR env0).builder_params.learning_rate = cfgWithLR.learning_rate
    ∧ (cfgWithLR.learning_rate = none →
        (resultOf cfgWithLR env0).model.learning_rate = (0.0005 : ℚ))
    ∧ ∀ lr, cfgWithLR.learning_rate = some lr →
        (resultOf cfgWithLR env0).model.learning_rate = lr :=
  C10_learning_rate_passthrough cfgWithLR env0 (resultOf cfgWithLR env0) rfl

/-- C7: the checkpoint holds an epoch attaining the minimal validation loss
of the run (and holds something as soon as one epoch ran), and a run that
reaches the final evaluation evaluates exactly the weights reloaded from that
checkpoint — the best-validation snapshot, not the last epoch. -/
theorem C7_checkpoint_is_best_snapshot (cfg : TrainConfig) (env : TrainEnv)
    (r : TrainResult) (hok : (train cfg env).2 = .ok r)
    (hret : r.returns_model = true) :
    r.evaluated_weights = (checkpointContents env.fit_epochs).map FitEpoch.weights
    ∧ (∀ m, checkpointContents env.fit_epochs = some m →
        m ∈ env.fit_epochs ∧ ∀ e ∈ env.fit_epochs, m.val_loss ≤ e.val_loss)
    ∧ (env.fit_epochs ≠ [] → (checkpointContents env.fit_epochs).isSome = true) := by
  obtain ⟨-, -, -, -, -, -, hw⟩ := train_ok_fields cfg env r hok
  exact ⟨hw hret, (checkpointContents_min env.fit_epochs).1,
    (checkpointContents_min env.fit_epochs).2⟩

/-- C7 witness: on the three-epoch fixture the evaluated weights are those of
the second epoch, which attained the minimal validation loss. -/
theorem C7_checkpoint_is_best_snapshot_witness :
    (resultOf cfg0 env0).evaluated_weights
        = (checkpointContents env0.fit_epochs).map FitEpoch.weights
    ∧ (∀ m, checkpointContents env0.fit_epochs = some m →
        m ∈ env0.fit_epochs ∧ ∀ e ∈ env0.fit_epochs, m.val_loss ≤ e.val_loss)
    ∧ (env0.fit_epochs ≠ [] → (checkpointContents env0.fit_epochs).isSome = true) :=
  C7_checkpoint_is_best_snapshot cfg0 env0 (resultOf cfg0 env0) rfl rfl

/-- C2 counterexample: with the default configuration and an empty test
split, `train` completes (it returns `None` from the early-return branch at
train.py line 296) having written the parameters file and the checkpoint but
no results bundle — so not every completed run writes the full timestamped
set. -/
theorem C2_counterexample_no_results_bundle :
    (train cfg0 envNoTest).2 = .ok (resultOf cfg0 envNoTest)
    ∧ (resultOf cfg0 envNoTest).returns_model = false
    ∧ (train cfg0 envNoTest).1 =
        [Event.dataLoaded "data",
         Event.fileWritten ".//20260101_000000_params.yaml",
         Event.fitRun,
         Event.fileWritten ".//20260101_000000_model.h5"]
    ∧ (train cfg0 envNoTest).1.filter isResultsWrite = [] :=
  ⟨rfl, rfl, rfl, rfl⟩

/-- C2 (amended): every run of `train` that completes with the final
evaluation — that is, every completed run whose test split holds at least
`nb_hist` samples and whose fit loop ran at least one epoch — writes the
parameters file, the model checkpoint and the results bundle, and every file
the run writes is named by appending to the one save name
`SAVE_DIR/SAVE_PREFIX_TIMESTAMP`; a completed run that skips the evaluation
writes only the parameters file and the checkpoint. -/
theorem C2_outputs_share_timestamp (cfg : TrainConfig) (env : TrainEnv)
    (r : TrainResult) (hok : (train cfg env).2 = .ok r)
    (hret : r.returns_model = true) (hfit : env.fit_epochs ≠ []) :
    r.save_name = cfg.save_dir ++ "/" ++ savePfxNorm cfg.save_pfx ++ env.timestamp
    ∧ Event.fileWritten (r.save_name ++ "_params.yaml") ∈ (train cfg env).1
    ∧ Event.fileWritten (r.save_name ++ "_model.h5") ∈ (train cfg env).1
    ∧ Event.fileWritten (r.save_name ++ "_results.h5") ∈ (train cfg env).1
    ∧ (train cfg env).1.all (isFileWritePrefixed r.save_name) = true := by
  have hsome : (checkpointContents env.fit_epochs).isSome = true :=
    (checkpointContents_min env.fit_epochs).2 hfit
  by_cases hs : (strideSetup cfg).stride ≤ 0
  · rw [train_of_stride_nonpos cfg env hs] at hok
    exact absurd hok (by simp)
  · revert hok
    simp only [train, hs, if_false]
    rcases hlk : model_dict.lookup cfg.model_name with _ | build
    · simp
    · cases hn : (optStrTruthy cfg.neptune_api_token && optStrTruthy cfg.neptune_project) <;>
        cases hh : env.has_neptune <;>
        cases hp : env.poseidon_init_raises <;>
        cases hc : env.poseidon_callback_raises <;>
        by_cases ht : env.dataset.test.nsamples < cfg.nb_hist.toNat <;>
        simp [hn, hh, hp, hc, ht, hsome] <;>
        (rintro rfl
         first
          | (simp at hret; done)
          | simp [isFileWritePrefixed, strStartsWith_append])

/-- C2 witness: a full run on the fixture dataset writes the three output
files under the save name `.//20260101_000000`. -/
theorem C2_outputs_share_timestamp_witness :
    (resultOf cfg0 env0).save_name
        = cfg0.save_dir ++ "/" ++ savePfxNorm cfg0.save_pfx ++ env0.timestamp
    ∧ Event.fileWritten ((resultOf cfg0 env0).save_name ++ "_params.yaml") ∈ (train cfg0 env0).1
    ∧ Event.fileWritten ((resultOf cfg0 env0).save_name ++ "_model.h5") ∈ (train cfg0 env0).1
    ∧ Event.fileWritten ((resultOf cfg0 env0).save_name ++ "_results.h5") ∈ (train cfg0 env0).1
    ∧ (train cfg0 env0).1.all (isFileWritePrefixed (resultOf cfg0 env0).save_name) = true :=
  C2_outputs_share_timestamp cfg0 env0 (resultOf cfg0 env0) rfl rfl (by simp [env0])

/-- C3 (refuting the fail-soft claim): with both neptune arguments set and
the neptune dependency unavailable, the failure is logged and the fit loop
still runs, but the run then aborts with a `NameError` on the never-assigned
`poseidon` (train.py line 313) instead of completing — the results bundle is
never written. -/
theorem C3_neptune_failure_aborts_run :
    (train cfgNeptune env0).1 =
      [Event.dataLoaded "data",
       Event.fileWritten ".//20260101_000000_params.yaml",
       Event.logError "Could not import neptune in das.neptune.",
       Event.fitRun,
       Event.fileWritten ".//20260101_000000_model.h5"]
    ∧ (train cfgNeptune env0).2 = .error (.nameError "poseidon") :=
  ⟨rfl, rfl⟩

end Das
